import Mathlib

/-!
Verification of the Protox microservice task-orchestration engine
(`src/protox_handler.py` and `src/main.py`) against its specification.

The two Python modules are shallowly embedded below.  Network activity is
made explicit: every function that performs an HTTP round trip takes the
outcome of that round trip as an argument (`Except String HTTPResponse`,
where `.error` is a raised transport exception such as a connection error
or timeout, and `.ok` is a received response), and returns, alongside its
result, the number of network calls it actually issued.  The poll loop
consumes a list of status-check outcomes, one per check; it returns `none`
when the supplied list is too short to drive the loop to a terminal state
(a modelling artefact, not a behaviour of the code).

`httpx.Response.raise_for_status` raises `HTTPStatusError` for every
response whose status code is not in the 2xx range; this is embedded as
`raiseForStatus`.  Response headers are modelled by the single optional
integer `retryAfter` (the `Retry-After` header, the only one the code
reads).  `pandas` result tables are modelled as a header row plus string
cells (`DataFrame`); `float(...)` is modelled by `pyFloat`, a parser for
plain decimal literals returning the exact decimal value.
-/

deriving instance DecidableEq for Except

namespace Protox

/-- An HTTP response as the handler observes it: `status_code`, body
`text`, and the optional integer `Retry-After` header. -/
structure HTTPResponse where
  status_code : Nat
  text : String
  retryAfter : Option Nat
deriving Repr, DecidableEq

/-- Model of `httpx.Response.raise_for_status`: returns the response when
its status code is 2xx, raises (returns `.error`) otherwise. -/
def raiseForStatus (r : HTTPResponse) : Except String HTTPResponse :=
  if 200 ≤ r.status_code ∧ r.status_code < 300 then .ok r
  else .error ("HTTP status error " ++ toString r.status_code)

/-- Model of `ProtoxHandler._retrieve_task_status` (protox_handler.py
363-379): perform the status POST (outcome `net`), then
`raise_for_status`. -/
def retrieveTaskStatus (net : Except String HTTPResponse) :
    Except String HTTPResponse :=
  match net with
  | .error e => .error e
  | .ok r => raiseForStatus r

/-- Drop leading whitespace characters from a character list. -/
def dropLeadingWs : List Char → List Char
  | [] => []
  | c :: cs => if c.isWhitespace then dropLeadingWs cs else c :: cs

/-- Model of Python `str.strip()` (no arguments): remove leading and
trailing whitespace. -/
def pyStrip (s : String) : String :=
  ⟨(dropLeadingWs (dropLeadingWs s.data).reverse).reverse⟩

/-- ASCII lowering of one character (the registry entries are ASCII, so
this suffices as a model of Python `str.lower()` here). -/
def charLower (c : Char) : Char :=
  if 'A' ≤ c ∧ c ≤ 'Z' then Char.ofNat (c.toNat + 32) else c

/-- Model of Python `str.lower()`. -/
def pyLower (s : String) : String :=
  ⟨s.data.map charLower⟩

/-- The handler's registry of supported properties
(`AVAILABLE_PROPERTIES`). -/
def AVAILABLE_PROPERTIES : List String := ["toxicity"]

/-- Model of `ProtoxHandler.validate_property` (protox_handler.py
266-275). -/
def validate_property (propertyName : String) : Bool :=
  (AVAILABLE_PROPERTIES.map pyLower).contains (pyLower propertyName)

/-- Model of the blank-input test `not smiles or smiles.strip() == ""`
used by the handler and the routes. -/
def isBlankSmiles (s : String) : Bool :=
  s == "" || pyStrip s == ""

/-- The typed exceptions `ProtoxHandler._submit_task` can raise, each
carrying its message (`str(e)` in the callers). -/
inductive SubmitErr where
  | quotaExceeded (msg : String)
  | rateLimited (msg : String)
  | valueError (msg : String)
  | requestError (msg : String)
deriving Repr, DecidableEq

/-- The message carried by a submit-time exception (`str(e)`). -/
def SubmitErr.msg : SubmitErr → String
  | .quotaExceeded m => m
  | .rateLimited m => m
  | .valueError m => m
  | .requestError m => m

/-- Model of `ProtoxHandler._submit_task` (protox_handler.py 305-361):
classify the enqueue response.  200 with a non-blank body yields the
trimmed body as task id; empty body raises `ValueError`; 429 raises
`RateLimitedException` (with the `Retry-After` hint, default 5, plus 1);
403 raises `QuotaExceededException`; any other status raises
`httpx.RequestError`; a transport failure propagates. -/
def submitTask (net : Except String HTTPResponse) : Except SubmitErr String :=
  match net with
  | .error e => .error (.requestError e)
  | .ok r =>
    if r.status_code == 200 then
      let taskId := pyStrip r.text
      if taskId == "" then .error (.valueError "No task ID returned from submission")
      else .ok taskId
    else if r.status_code == 429 then
      .error (.rateLimited ("Rate limited by Protox. Retry-After: "
        ++ toString (r.retryAfter.getD 5 + 1) ++ "s"))
    else if r.status_code == 403 then
      .error (.quotaExceeded "Daily quota exceeded for Protox API")
    else
      .error (.requestError ("Protox API error " ++ toString r.status_code))

/-- The dictionary `ProtoxHandler.get_task_status` returns. -/
structure TaskStatusResult where
  status : String
  taskId : String
  error : Option String
deriving Repr, DecidableEq

/-- Model of `ProtoxHandler.get_task_status` (protox_handler.py 237-264):
a 200 response with non-empty body is `completed`; any other response
that survives `raise_for_status` is `pending`; an exception (transport
failure or non-2xx status) is `error`. -/
def getTaskStatus (taskId : String) (net : Except String HTTPResponse) :
    TaskStatusResult :=
  match retrieveTaskStatus net with
  | .ok r =>
    if r.status_code == 200 && r.text != "" then ⟨"completed", taskId, none⟩
    else ⟨"pending", taskId, none⟩
  | .error e => ⟨"error", taskId, some e⟩

/-- A parsed result document, as produced by
`pd.read_csv(StringIO(response.text), sep='\t')`: a list of column names
(the header row) and the data rows, each a list of string cells. -/
structure DataFrame where
  columns : List String
  rows : List (List String)
deriving Repr, DecidableEq

/-- Model of pandas `DataFrame.empty`: true when either axis has length
zero. -/
def DataFrame.emptyDf (df : DataFrame) : Bool :=
  df.rows.isEmpty || df.columns.isEmpty

/-- Digits of a numeral folded into a natural number (total; empty list
gives 0). -/
def natOfDigits (cs : List Char) : Nat :=
  cs.foldl (fun a c => a * 10 + (c.toNat - 48)) 0

/-- The exact value of a parsed decimal literal, `mantissa / 10 ^
scale`.  An exact representation of the value Python's `float(...)`
extracts from a decimal string (the binary rounding of the IEEE double
is not modelled; no claim depends on it). -/
structure PyFloat where
  mantissa : Int
  scale : Nat
deriving Repr, DecidableEq

/-- The rational a `PyFloat` denotes. -/
def PyFloat.toRat (v : PyFloat) : Rat :=
  (v.mantissa : Rat) / (10 : Rat) ^ v.scale

/-- Split a character list at every `'.'`. -/
def splitOnDot : List Char → List (List Char)
  | [] => [[]]
  | c :: cs =>
    match splitOnDot cs with
    | [] => [[]]
    | g :: gs => if c = '.' then [] :: g :: gs else (c :: g) :: gs

/-- Model of Python `float(...)` on plain decimal literals (optional
surrounding whitespace, optional sign, integer and/or fractional digit
groups), returning the exact decimal value; `none` models the raised
`ValueError`.  Exponent and special forms, which only widen the set of
accepted strings, are not modelled — every theorem below quantifies over
parse success and failure abstractly. -/
def pyFloat (s : String) : Option PyFloat :=
  let cs := (pyStrip s).data
  let neg : Bool :=
    match cs with
    | '-' :: _ => true
    | _ => false
  let body :=
    match cs with
    | '-' :: rest => rest
    | '+' :: rest => rest
    | rest => rest
  let signed : Int → Nat → Option PyFloat := fun m sc =>
    some ⟨if neg then -m else m, sc⟩
  match splitOnDot body with
  | [ipart] =>
    if ipart.isEmpty then none
    else if ipart.all Char.isDigit then signed (natOfDigits ipart) 0
    else none
  | [ipart, fpart] =>
    if ipart.isEmpty && fpart.isEmpty then none
    else if ipart.all Char.isDigit && fpart.all Char.isDigit then
      signed (natOfDigits ipart * 10 ^ fpart.length + natOfDigits fpart)
        fpart.length
    else none
  | _ => none

/-- The handler's `_task_cache`, mapping a task id to its parsed result
document. -/
abbrev Cache : Type := List (String × DataFrame)

/-- Model of `ProtoxHandler._get_results` (protox_handler.py 381-408).
`net` bundles the one network round trip the function may perform — the
GET of the result CSV, its `raise_for_status`, and the `pd.read_csv`
parse — as either a raised exception message or a parsed document.
Returns the result, the updated cache, and the number of network calls
issued (0 on a cache hit, 1 otherwise). -/
def getResults (cache : Cache) (taskId : String)
    (net : Except String DataFrame) :
    Except String DataFrame × Cache × Nat :=
  match List.lookup taskId cache with
  | some df => (.ok df, cache, 0)
  | none =>
    match net with
    | .error e => (.error e, cache, 1)
    | .ok df => (.ok df, (taskId, df) :: cache, 1)

/-- The result dictionary built by `_poll_for_results`, `predict_single`
and `predict_batch` (mirrors `PredictionResponse` in main.py). -/
structure PredResult where
  smiles : String
  property : String
  status : String
  taskId : Option String
  prediction : Option PyFloat
  error : Option String
deriving Repr, DecidableEq

/-- The first data row's first cell — the value of
`df[df.columns[0]].iloc[0]`. -/
def firstCell (df : DataFrame) : Option String :=
  df.rows.head?.bind List.head?

/-- Model of `float(df[first_col].iloc[0])` in the ready branch of
`_poll_for_results`: `.error` is the raised exception's message. -/
def extractPrediction (df : DataFrame) : Except String PyFloat :=
  match firstCell df with
  | none => .error "single positional indexer is out-of-bounds"
  | some c =>
    match pyFloat c with
    | none => .error ("could not convert string to float: " ++ c)
    | some q => .ok q

/-- The timeout dictionary `_poll_for_results` returns when the poll
budget is exhausted (protox_handler.py 431-437); it carries no task id. -/
def timeoutRec (smiles propertyName : String) (maxPolls : Nat) : PredResult :=
  ⟨smiles, propertyName, "timeout", none, none,
    some ("Task did not complete after " ++ toString maxPolls ++ " polls")⟩

/-- `if max_polls is not None and poll_count >= max_polls`: the budget
value when the check fires, `none` otherwise. -/
def pollBudget : Option Nat → Nat → Option Nat
  | some m, pollCount => if m ≤ pollCount then some m else none
  | none, _ => none

/-- The ready branch of `_poll_for_results` (protox_handler.py 443-477):
fetch the result document through the cache, then extract the first
column's first-row value; any exception from the fetch or the extraction
is caught and reported as a parse failure.  Returns the result record,
the updated cache, and the number of result-fetch network calls. -/
def readyBranch (taskId smiles propertyName : String)
    (fetchNet : Except String DataFrame) (cache : Cache) :
    PredResult × Cache × Nat :=
  match getResults cache taskId fetchNet with
  | (.error e, cache', fc) =>
    (⟨smiles, propertyName, "error", some taskId, none,
      some ("Failed to parse results: " ++ e)⟩, cache', fc)
  | (.ok df, cache', fc) =>
    if df.emptyDf = false ∧ 0 < df.columns.length then
      match extractPrediction df with
      | .ok q =>
        (⟨smiles, propertyName, "success", some taskId, some q, none⟩, cache', fc)
      | .error e =>
        (⟨smiles, propertyName, "error", some taskId, none,
          some ("Failed to parse results: " ++ e)⟩, cache', fc)
    else
      (⟨smiles, propertyName, "error", some taskId, none,
        some "Empty results from Protox"⟩, cache', fc)

/-- Model of `ProtoxHandler._poll_for_results` (protox_handler.py
410-493).  `events` supplies the outcome of each status-check round
trip, in order; `fetchNet` the outcome of the (at most one) result
fetch.  Returns the result record, the updated cache, the number of
status-check calls, and the number of result-fetch calls; `none` when
`events` ran out while the task was still pending. -/
def pollForResults (taskId smiles propertyName : String)
    (maxPolls : Option Nat) (fetchNet : Except String DataFrame)
    (cache : Cache) :
    Nat → List (Except String HTTPResponse) →
      Option (PredResult × Cache × Nat × Nat)
  | pollCount, [] =>
    match pollBudget maxPolls pollCount with
    | some m => some (timeoutRec smiles propertyName m, cache, 0, 0)
    | none => none
  | pollCount, e :: rest =>
    match pollBudget maxPolls pollCount with
    | some m => some (timeoutRec smiles propertyName m, cache, 0, 0)
    | none =>
      match retrieveTaskStatus e with
      | .error msg =>
        some (⟨smiles, propertyName, "error", some taskId, none, some msg⟩,
          cache, 1, 0)
      | .ok r =>
        if r.status_code == 200 && r.text != "" then
          match readyBranch taskId smiles propertyName fetchNet cache with
          | (res, cache', fc) => some (res, cache', 1, fc)
        else
          match pollForResults taskId smiles propertyName maxPolls fetchNet
              cache (pollCount + 1) rest with
          | none => none
          | some (res, cache', sc, fc) => some (res, cache', sc + 1, fc)

/-- Network calls issued by one orchestration, by kind: enqueue POSTs,
status-check POSTs, result-fetch GETs. -/
structure NetCounts where
  submit : Nat
  status : Nat
  fetch : Nat
deriving Repr, DecidableEq

/-- The dictionary `ProtoxHandler.submit_prediction` returns (mirrors
`SubmitPredictionResponse` in main.py). -/
structure SubmitResult where
  status : String
  taskId : Option String
  smiles : Option String
  property : Option String
  error : Option String
deriving Repr, DecidableEq

/-- The error dictionary `submit_prediction` returns for a blank SMILES
or an unsupported property. -/
def submitValidationErr (msg : String) : SubmitResult :=
  ⟨"error", none, none, none, some msg⟩

/-- Model of `ProtoxHandler.submit_prediction` (protox_handler.py
86-140): validate the SMILES and the property, then enqueue once,
mapping each raised exception class to its error dictionary.  The second
component counts enqueue network calls. -/
def submitPrediction (smiles propertyName : String)
    (net : Except String HTTPResponse) : SubmitResult × Nat :=
  if isBlankSmiles smiles then
    (submitValidationErr "SMILES string cannot be empty", 0)
  else if validate_property propertyName = false then
    (submitValidationErr ("Property '" ++ propertyName ++ "' not supported"), 0)
  else
    match submitTask net with
    | .ok taskId =>
      (⟨"submitted", some taskId, some smiles, some propertyName, none⟩, 1)
    | .error (.quotaExceeded _) =>
      (submitValidationErr "Daily quota exceeded", 1)
    | .error (.rateLimited _) =>
      (submitValidationErr "Rate limited, please retry later", 1)
    | .error e => (submitValidationErr e.msg, 1)

/-- The error dictionary `predict_single` returns before or instead of
polling (no task id). -/
def singleErrorRec (smiles propertyName msg : String) : PredResult :=
  ⟨smiles, propertyName, "error", none, none, some msg⟩

/-- Model of `ProtoxHandler.predict_single` (protox_handler.py 142-192):
validate, enqueue, then drive the poll loop.  `submitNet` is the enqueue
round trip, `statusEvents` the status-check round trips, `fetchNet` the
result fetch.  Returns the result record, the updated cache and the
network-call counts; `none` when `statusEvents` ran out. -/
def predictSingle (smiles propertyName : String) (maxPolls : Option Nat)
    (submitNet : Except String HTTPResponse)
    (statusEvents : List (Except String HTTPResponse))
    (fetchNet : Except String DataFrame) (cache : Cache) :
    Option (PredResult × Cache × NetCounts) :=
  if isBlankSmiles smiles then
    some (singleErrorRec smiles propertyName "SMILES string cannot be empty",
      cache, ⟨0, 0, 0⟩)
  else if validate_property propertyName = false then
    some (singleErrorRec smiles propertyName
      ("Property '" ++ propertyName ++ "' not supported"), cache, ⟨0, 0, 0⟩)
  else
    match submitTask submitNet with
    | .error e => some (singleErrorRec smiles propertyName e.msg, cache, ⟨1, 0, 0⟩)
    | .ok taskId =>
      match pollForResults taskId smiles propertyName maxPolls fetchNet cache
          0 statusEvents with
      | none => none
      | some (res, cache', sc, fc) => some (res, cache', ⟨1, sc, fc⟩)

/-- The submission phase of `predict_batch` (protox_handler.py 213-222):
walk the input list, skip blanks without consuming a network event, and
enqueue every other identifier, dropping those whose submission raised.
Returns the task list (task id, smiles), the unconsumed enqueue events,
and the number of enqueue calls; `none` when `submits` ran out. -/
def submitPhase : List (Except String HTTPResponse) → List String →
    Option (List (String × String) × List (Except String HTTPResponse) × Nat)
  | submits, [] => some ([], submits, 0)
  | submits, s :: rest =>
    if isBlankSmiles s then submitPhase submits rest
    else
      match submits with
      | [] => none
      | net :: nets =>
        match submitPhase nets rest with
        | none => none
        | some (tasks, remaining, n) =>
          match submitTask net with
          | .ok taskId => some ((taskId, s) :: tasks, remaining, n + 1)
          | .error _ => some (tasks, remaining, n + 1)

/-- The polling phase of `predict_batch` (protox_handler.py 224-233):
poll every submitted task in order, threading the cache.  Each task
consumes one poll environment (its status-check events and its result
fetch).  Returns the result records, the final cache, and the total
status-check and result-fetch call counts. -/
def pollPhase (propertyName : String) (maxPolls : Option Nat) :
    Cache → List (List (Except String HTTPResponse) × Except String DataFrame) →
    List (String × String) → Option (List PredResult × Cache × Nat × Nat)
  | cache, _, [] => some ([], cache, 0, 0)
  | cache, envs, (taskId, s) :: rest =>
    match envs with
    | [] => none
    | (events, fetchNet) :: envs' =>
      match pollForResults taskId s propertyName maxPolls fetchNet cache
          0 events with
      | none => none
      | some (res, cache', sc, fc) =>
        match pollPhase propertyName maxPolls cache' envs' rest with
        | none => none
        | some (results, cache'', sc', fc') =>
          some (res :: results, cache'', sc + sc', fc + fc')

/-- Model of `ProtoxHandler.predict_batch` (protox_handler.py 194-235):
submit every non-blank identifier, then poll every successfully
submitted task.  Note: unlike `submit_prediction` and `predict_single`,
this function performs no property validation and no per-identifier
error record for skipped inputs. -/
def predictBatch (propertyName : String) (maxPolls : Option Nat)
    (submits : List (Except String HTTPResponse))
    (pollEnvs : List (List (Except String HTTPResponse) × Except String DataFrame))
    (cache : Cache) (smilesList : List String) :
    Option (List PredResult × Cache × NetCounts) :=
  match submitPhase submits smilesList with
  | none => none
  | some (tasks, _, nSubmit) =>
    match pollPhase propertyName maxPolls cache pollEnvs tasks with
    | none => none
    | some (results, cache', sc, fc) => some (results, cache', ⟨nSubmit, sc, fc⟩)

/-- The response body of the `/predict-batch` route (main.py 86-94). -/
structure BatchResponse where
  count : Nat
  property : String
  results : List PredResult
  status : String
deriving Repr, DecidableEq

/-- The aggregate batch status computed by the `/predict-batch` route
(main.py 268-269): `"partial"` when at least one per-task outcome is a
success, `"error"` otherwise. -/
def batchStatus (results : List PredResult) : String :=
  if results.any (fun r => r.status == "success") then "partial" else "error"

/-- The detail string of the unsupported-property `HTTPException` raised
by the routes in main.py. -/
def propertyNotSupportedDetail (propertyName : String) : String :=
  "Property '" ++ propertyName ++ "' not supported. Available properties: "
    ++ String.intercalate ", " AVAILABLE_PROPERTIES

/-- Model of the `/predict-batch` route (main.py 226-276): reject an
empty list, a list longer than 1000, and an unsupported property with a
400 `HTTPException` (the `Except.error` case, carrying status code and
detail) before invoking the handler; otherwise run `predict_batch` and
aggregate.  Alongside the response: the updated cache and the
network-call counts. -/
def predictBatchEndpoint (smilesList : List String) (propertyName : String)
    (maxPolls : Option Nat)
    (submits : List (Except String HTTPResponse))
    (pollEnvs : List (List (Except String HTTPResponse) × Except String DataFrame))
    (cache : Cache) :
    Option (Except (Nat × String) BatchResponse × Cache × NetCounts) :=
  if smilesList.isEmpty then
    some (.error (400, "SMILES list cannot be empty"), cache, ⟨0, 0, 0⟩)
  else if 1000 < smilesList.length then
    some (.error (400, "Batch size cannot exceed 1000 SMILES strings"),
      cache, ⟨0, 0, 0⟩)
  else if validate_property propertyName = false then
    some (.error (400, propertyNotSupportedDetail propertyName),
      cache, ⟨0, 0, 0⟩)
  else
    match predictBatch propertyName maxPolls submits pollEnvs cache smilesList with
    | none => none
    | some (results, cache', counts) =>
      some (.ok ⟨results.length, propertyName, results, batchStatus results⟩,
        cache', counts)

/-! ## Helper lemmas -/

/-- The status field `get_task_status` produces, case by case. -/
lemma getTaskStatus_status_eq (taskId : String) (net : Except String HTTPResponse) :
    (getTaskStatus taskId net).status =
      match net with
      | .error _ => "error"
      | .ok r =>
        if 200 ≤ r.status_code ∧ r.status_code < 300 then
          if r.status_code == 200 && r.text != "" then "completed" else "pending"
        else "error" := by
  cases net with
  | error e => rfl
  | ok r =>
    unfold getTaskStatus retrieveTaskStatus raiseForStatus
    by_cases hc : 200 ≤ r.status_code ∧ r.status_code < 300
    · simp only [if_pos hc]
      by_cases hr2 : (r.status_code == 200 && r.text != "") = true
      · simp [hr2]
      · simp [hr2]
    · simp only [if_neg hc]

/-! ## C3: result cache is write-once and fetch is idempotent -/

/-- C3: once a result document has been cached for a `taskID` it is never
overwritten: the first (cache-missing) fetch issues exactly one network
call and stores the document; a second fetch for the same task returns
the identical document from the unchanged cache with no network call;
and in general a fetch for any cached task issues no network call. -/
theorem c3_cache_idempotent (cache : Cache) (taskId : String) (df : DataFrame)
    (net2 : Except String DataFrame)
    (h : List.lookup taskId cache = none) :
    getResults cache taskId (.ok df) = (.ok df, (taskId, df) :: cache, 1)
  ∧ getResults ((taskId, df) :: cache) taskId net2 = (.ok df, (taskId, df) :: cache, 0)
  ∧ (∀ c (d : DataFrame) n, List.lookup taskId c = some d →
      getResults c taskId n = (.ok d, c, 0)) := by
  refine ⟨?_, ?_, ?_⟩
  · unfold getResults
    rw [h]
  · unfold getResults
    simp [List.lookup]
  · intro c d n hd
    unfold getResults
    rw [hd]

/-- Witness for C3 at a concrete cache, task id and document. -/
theorem c3_cache_idempotent_witness :
    getResults [] "t1" (.ok ⟨["a"], [["1"]]⟩)
      = (.ok ⟨["a"], [["1"]]⟩, [("t1", ⟨["a"], [["1"]]⟩)], 1)
  ∧ getResults [("t1", ⟨["a"], [["1"]]⟩)] "t1" (.error "net down")
      = (.ok ⟨["a"], [["1"]]⟩, [("t1", ⟨["a"], [["1"]]⟩)], 0) := by
  have h := c3_cache_idempotent [] "t1" ⟨["a"], [["1"]]⟩ (.error "net down") (by decide)
  exact ⟨h.1, h.2.1⟩

/-! ## C8: aggregate batch status -/

/-- C8: the aggregate batch status computed by the `/predict-batch`
route is success-bearing (`"partial"`) if and only if at least one
per-task outcome is a success, and is the failure status (`"error"`)
otherwise; the route's response always carries exactly this aggregate
over its own result list. -/
theorem c8_batch_status (results : List PredResult) :
    (batchStatus results = "partial" ↔ ∃ r ∈ results, r.status = "success")
  ∧ (batchStatus results = "error" ↔ ¬ ∃ r ∈ results, r.status = "success")
  ∧ (∀ xs propertyName maxPolls subs envs cache resp cache' counts,
      predictBatchEndpoint xs propertyName maxPolls subs envs cache
        = some (.ok resp, cache', counts) →
      resp.status = batchStatus resp.results) := by
  refine ⟨?_, ?_, ?_⟩
  · unfold batchStatus
    split <;> rename_i hany
    · simpa using hany
    · simp only [List.any_eq_true, beq_iff_eq] at hany
      simpa using hany
  · unfold batchStatus
    split <;> rename_i hany
    · simp only [List.any_eq_true, beq_iff_eq] at hany
      simpa using hany
    · simpa using hany
  · intro xs p maxPolls subs envs cache resp cache' counts h
    unfold predictBatchEndpoint at h
    split at h
    · simp at h
    · split at h
      · simp at h
      · split at h
        · simp at h
        · split at h
          · simp at h
          · rename_i results' cache'' counts' heq
            have hresp : resp = ⟨results'.length, p, results', batchStatus results'⟩ := by
              simp only [Option.some.injEq, Prod.mk.injEq, Except.ok.injEq] at h
              exact h.1.symm
            subst hresp
            rfl

/-- Witness for C8 at concrete outcome lists and a concrete route run. -/
theorem c8_batch_status_witness :
    batchStatus [⟨"C", "toxicity", "success", some "t1", some ⟨1, 0⟩, none⟩] = "partial"
  ∧ batchStatus [timeoutRec "C" "toxicity" 0] = "error" := by
  constructor
  · exact (c8_batch_status _).1.mpr (by simp)
  · exact (c8_batch_status _).2.1.mpr (by simp [timeoutRec])

/-! ## C10: batch route size validation -/

/-- C10: the `/predict-batch` route rejects an empty identifier list and
any list of more than 1000 identifiers with a 400 validation error
before invoking the orchestrator, issuing no network calls (all three
counters zero) and leaving the cache untouched. -/
theorem c10_endpoint_limits (xs : List String) (propertyName : String)
    (maxPolls : Option Nat) (subs) (envs) (cache : Cache) :
    (xs = [] → predictBatchEndpoint xs propertyName maxPolls subs envs cache
      = some (.error (400, "SMILES list cannot be empty"), cache, ⟨0, 0, 0⟩))
  ∧ (1000 < xs.length → predictBatchEndpoint xs propertyName maxPolls subs envs cache
      = some (.error (400, "Batch size cannot exceed 1000 SMILES strings"),
          cache, ⟨0, 0, 0⟩)) := by
  constructor
  · rintro rfl
    rfl
  · intro hlen
    have hne : xs.isEmpty = false := by
      cases xs with
      | nil => simp at hlen
      | cons a l => rfl
    unfold predictBatchEndpoint
    rw [hne]
    simp [hlen]

/-- Witness for C10: the empty list and a 1001-element list are both
rejected without any orchestration. -/
theorem c10_endpoint_limits_witness :
    predictBatchEndpoint [] "toxicity" none [] [] []
      = some (.error (400, "SMILES list cannot be empty"), [], ⟨0, 0, 0⟩)
  ∧ predictBatchEndpoint (List.replicate 1001 "C") "toxicity" none [] [] []
      = some (.error (400, "Batch size cannot exceed 1000 SMILES strings"),
          [], ⟨0, 0, 0⟩) := by
  constructor
  · exact (c10_endpoint_limits [] "toxicity" none [] [] []).1 rfl
  · exact (c10_endpoint_limits (List.replicate 1001 "C") "toxicity" none [] [] []).2
      (by simp only [List.length_replicate]; omega)

/-! ## C1: status-check classification -/

/-- C1 counterexample: the claim says a non-2xx status-check response is
classified as pending, but `_retrieve_task_status` calls
`raise_for_status`, which raises on every non-2xx response; the raised
exception is caught and surfaced as an `error` status, not `pending`.
Concretely, a 404 response yields status `"error"`. -/
theorem c1_counterexample :
    (getTaskStatus "t1" (.ok ⟨404, "not found", none⟩)).status = "error"
  ∧ (getTaskStatus "t1" (.ok ⟨404, "not found", none⟩)).status ≠ "pending" := by
  decide

/-- C1 amended: the status check classifies a 200 response with a
non-empty body as completed; any other 2xx response (empty body, or a
2xx status other than 200) as pending; and every non-2xx response —
which `raise_for_status` turns into an exception — as an error, exactly
like a transport failure. -/
theorem c1_status_classification (taskId : String)
    (net : Except String HTTPResponse) :
    ((∃ r, net = .ok r ∧ r.status_code = 200 ∧ r.text ≠ "") ↔
      (getTaskStatus taskId net).status = "completed")
  ∧ ((∃ r, net = .ok r ∧ 200 ≤ r.status_code ∧ r.status_code < 300 ∧
        ¬(r.status_code = 200 ∧ r.text ≠ "")) ↔
      (getTaskStatus taskId net).status = "pending")
  ∧ (((∃ e, net = .error e) ∨
        ∃ r, net = .ok r ∧ (r.status_code < 200 ∨ 300 ≤ r.status_code)) ↔
      (getTaskStatus taskId net).status = "error") := by
  rw [getTaskStatus_status_eq taskId net]
  cases net with
  | error e => simp
  | ok r =>
    by_cases hc : 200 ≤ r.status_code ∧ r.status_code < 300
    · simp only [if_pos hc]
      by_cases hr2 : (r.status_code == 200 && r.text != "") = true
      · simp only [if_pos hr2]
        simp only [Bool.and_eq_true, beq_iff_eq, bne_iff_ne, ne_eq] at hr2
        simp [hr2, hc]
      · simp only [if_neg hr2]
        simp only [Bool.and_eq_true, beq_iff_eq, bne_iff_ne, ne_eq, not_and,
          Classical.not_not] at hr2
        constructor
        · constructor
          · rintro ⟨r', hr', h200, hne⟩
            cases hr'
            exact absurd (hr2 h200) hne
          · intro hfalse
            exact absurd hfalse (by decide)
        constructor
        · constructor
          · intro _
            trivial
          · intro _
            exact ⟨r, rfl, hc.1, hc.2, fun h => h.2 (hr2 h.1)⟩
        · constructor
          · rintro (⟨e, he⟩ | ⟨r', hr', hout⟩)
            · cases he
            · cases hr'
              omega
          · intro hfalse
            exact absurd hfalse (by decide)
    · simp only [if_neg hc]
      constructor
      · constructor
        · rintro ⟨r', hr', h200, _⟩
          cases hr'
          exact absurd ⟨h200.ge.trans (by omega), by omega⟩ hc
        · intro hfalse
          exact absurd hfalse (by decide)
      constructor
      · constructor
        · rintro ⟨r', hr', h1, h2, _⟩
          cases hr'
          exact absurd ⟨h1, h2⟩ hc
        · intro hfalse
          exact absurd hfalse (by decide)
      · constructor
        · intro _
          trivial
        · intro _
          exact .inr ⟨r, rfl, by omega⟩

/-! ## Poll-loop lemmas -/

/-- A status-check round trip whose outcome leaves the task pending: a
response that survives `raise_for_status` but is not a 200 with a
non-empty body. -/
def isPendingEvent (e : Except String HTTPResponse) : Bool :=
  match retrieveTaskStatus e with
  | .ok r => !(r.status_code == 200 && r.text != "")
  | .error _ => false

lemma isPendingEvent_elim {e : Except String HTTPResponse}
    (h : isPendingEvent e = true) :
    ∃ r, retrieveTaskStatus e = .ok r ∧
      (r.status_code == 200 && r.text != "") = false := by
  unfold isPendingEvent at h
  cases hr : retrieveTaskStatus e with
  | ok r =>
    rw [hr] at h
    refine ⟨r, rfl, ?_⟩
    simp only [Bool.not_eq_true'] at h
    exact h
  | error msg =>
    rw [hr] at h
    simp at h

/-- With the poll budget already exhausted, the loop returns the timeout
record at once: no event is consumed, no network call is made. -/
lemma pollForResults_exhausted (taskId smiles propertyName : String)
    (m : Nat) (fetchNet : Except String DataFrame) (cache : Cache)
    (pollCount : Nat) (events : List (Except String HTTPResponse))
    (h : m ≤ pollCount) :
    pollForResults taskId smiles propertyName (some m) fetchNet cache
      pollCount events
      = some (timeoutRec smiles propertyName m, cache, 0, 0) := by
  have hpb : pollBudget (some m) pollCount = some m := by
    simp only [pollBudget, if_pos h]
  cases events with
  | nil => simp only [pollForResults, hpb]
  | cons e rest => simp only [pollForResults, hpb]

/-- If the first `m - pollCount` events (at least) all leave the task
pending, a loop with budget `m` runs the budget out: it performs exactly
`m - pollCount` further status checks, no result fetch, and returns the
timeout record with the cache untouched. -/
lemma pollForResults_pending_exhaust (taskId smiles propertyName : String)
    (m : Nat) (fetchNet : Except String DataFrame) (cache : Cache) :
    ∀ (events : List (Except String HTTPResponse)) (pollCount : Nat),
    (∀ e ∈ events, isPendingEvent e = true) →
    m ≤ pollCount + events.length →
    pollForResults taskId smiles propertyName (some m) fetchNet cache
      pollCount events
      = some (timeoutRec smiles propertyName m, cache, m - pollCount, 0) := by
  intro events
  induction events with
  | nil =>
    intro pollCount _ hlen
    simp only [List.length_nil, Nat.add_zero] at hlen
    rw [pollForResults_exhausted taskId smiles propertyName m fetchNet cache
      pollCount [] hlen, Nat.sub_eq_zero_of_le hlen]
  | cons e rest ih =>
    intro pollCount hp hlen
    by_cases hb : m ≤ pollCount
    · rw [pollForResults_exhausted taskId smiles propertyName m fetchNet cache
        pollCount (e :: rest) hb, Nat.sub_eq_zero_of_le hb]
    · obtain ⟨r, hr, hcond⟩ := isPendingEvent_elim (hp e (List.mem_cons_self e rest))
      have hrec := ih (pollCount + 1)
        (fun x hx => hp x (List.mem_cons_of_mem e hx))
        (by simp only [List.length_cons] at hlen; omega)
      have hpb : pollBudget (some m) pollCount = none := by
        simp only [pollBudget, if_neg hb]
      have hm : m - (pollCount + 1) + 1 = m - pollCount := by omega
      simp only [pollForResults, hpb, hr, hcond, Bool.false_eq_true, if_false,
        hrec]
      rw [hm]

/-- A zero poll budget is exhausted before the first status check: the
loop consumes no event at all, whatever the backend would have
answered. -/
lemma pollForResults_zero_budget (taskId smiles propertyName : String)
    (fetchNet : Except String DataFrame) (cache : Cache)
    (events : List (Except String HTTPResponse)) :
    pollForResults taskId smiles propertyName (some 0) fetchNet cache 0 events
      = some (timeoutRec smiles propertyName 0, cache, 0, 0) :=
  pollForResults_exhausted taskId smiles propertyName 0 fetchNet cache 0 events
    (Nat.le_refl 0)

/-! ## C4: exhausted poll budget times out -/

/-- C4: whenever a configured poll budget `m` is exhausted while the
task is still pending, the poll loop terminates in the timeout record
after exactly `m` status checks and no result fetch — no further
network calls; and `predict_single` with a poll budget of 0 on a
successfully submitted task returns the timeout outcome at once (one
enqueue call, zero status checks, zero fetches), so it never blocks. -/
theorem c4_budget_timeout (taskId smiles propertyName : String)
    (m : Nat) (fetchNet : Except String DataFrame) (cache : Cache)
    (events : List (Except String HTTPResponse))
    (submitNet : Except String HTTPResponse) (taskId' : String)
    (hp : ∀ e ∈ events, isPendingEvent e = true)
    (hlen : m ≤ events.length)
    (hs : isBlankSmiles smiles = false)
    (hv : validate_property propertyName = true)
    (hsub : submitTask submitNet = .ok taskId') :
    pollForResults taskId smiles propertyName (some m) fetchNet cache 0 events
      = some (timeoutRec smiles propertyName m, cache, m, 0)
  ∧ predictSingle smiles propertyName (some 0) submitNet events fetchNet cache
      = some (timeoutRec smiles propertyName 0, cache, ⟨1, 0, 0⟩) := by
  constructor
  · simpa using pollForResults_pending_exhaust taskId smiles propertyName m
      fetchNet cache events 0 hp (by omega)
  · unfold predictSingle
    rw [hs, hv]
    simp only [Bool.false_eq_true, if_false, Bool.true_eq_false]
    rw [hsub]
    simp only [pollForResults_zero_budget]

/-- Witness for C4: two pending responses exhaust a budget of 2; a
budget of 0 times out with no status check. -/
theorem c4_budget_timeout_witness :
    pollForResults "t42" "CCO" "toxicity" (some 2) (.error "x") [] 0
        [.ok ⟨204, "", none⟩, .ok ⟨204, "", none⟩]
      = some (timeoutRec "CCO" "toxicity" 2, [], 2, 0)
  ∧ predictSingle "CCO" "toxicity" (some 0) (.ok ⟨200, "t42", none⟩)
        [.ok ⟨204, "", none⟩, .ok ⟨204, "", none⟩] (.error "x") []
      = some (timeoutRec "CCO" "toxicity" 0, [], ⟨1, 0, 0⟩) :=
  c4_budget_timeout "t42" "CCO" "toxicity" 2 (.error "x") []
    [.ok ⟨204, "", none⟩, .ok ⟨204, "", none⟩] (.ok ⟨200, "t42", none⟩) "t42"
    (by decide) (by decide) (by decide) (by decide) (by decide)

/-! ## C9: budget is checked before any status check -/

/-- C9: the poll loop checks its budget before performing any status
check, so with a budget of 0 it issues zero status-check and zero
result-fetch calls and returns the timeout record for every possible
backend behaviour — even when the first status response would have
reported the task ready; `predict_single` with a poll budget of 0 on a
successfully submitted task therefore issues no polling network calls
at all (only the single enqueue) and returns timeout. -/
theorem c9_budget_checked_first (taskId smiles propertyName : String)
    (fetchNet : Except String DataFrame) (cache : Cache)
    (events : List (Except String HTTPResponse))
    (submitNet : Except String HTTPResponse) (taskId' : String)
    (hs : isBlankSmiles smiles = false)
    (hv : validate_property propertyName = true)
    (hsub : submitTask submitNet = .ok taskId') :
    pollForResults taskId smiles propertyName (some 0) fetchNet cache 0 events
      = some (timeoutRec smiles propertyName 0, cache, 0, 0)
  ∧ predictSingle smiles propertyName (some 0) submitNet events fetchNet cache
      = some (timeoutRec smiles propertyName 0, cache, ⟨1, 0, 0⟩) := by
  constructor
  · exact pollForResults_zero_budget taskId smiles propertyName fetchNet cache
      events
  · unfold predictSingle
    rw [hs, hv]
    simp only [Bool.false_eq_true, if_false, Bool.true_eq_false]
    rw [hsub]
    simp only [pollForResults_zero_budget]

/-- Witness for C9: the task is ready on the very first status response,
yet a zero budget consumes nothing and returns timeout. -/
theorem c9_budget_checked_first_witness :
    pollForResults "t42" "CCO" "toxicity" (some 0)
        (.ok ⟨["toxicity_score"], [["0.73"]]⟩) [] 0 [.ok ⟨200, "done", none⟩]
      = some (timeoutRec "CCO" "toxicity" 0, [], 0, 0)
  ∧ predictSingle "CCO" "toxicity" (some 0) (.ok ⟨200, "t42", none⟩)
        [.ok ⟨200, "done", none⟩] (.ok ⟨["toxicity_score"], [["0.73"]]⟩) []
      = some (timeoutRec "CCO" "toxicity" 0, [], ⟨1, 0, 0⟩) :=
  c9_budget_checked_first "t42" "CCO" "toxicity"
    (.ok ⟨["toxicity_score"], [["0.73"]]⟩) [] [.ok ⟨200, "done", none⟩]
    (.ok ⟨200, "t42", none⟩) "t42" (by decide) (by decide) (by decide)

/-! ## C7: HTTP 403 on enqueue is quota-exceeded -/

/-- C7: a 403 enqueue response raises `QuotaExceededException`, a
failure class distinct (by constructor) from the 429-raised
`RateLimitedException`; `submit_prediction` maps it to the
quota-exceeded error outcome — a message different from the
rate-limited one — after exactly one network call; and `predict_single`
on a 403 enqueue returns the error outcome with zero status-check and
zero result-fetch calls, whatever the backend would have answered to
polling. -/
theorem c7_quota_exceeded (smiles body : String) (hdr : Option Nat)
    (maxPolls : Option Nat) (events : List (Except String HTTPResponse))
    (fetchNet : Except String DataFrame) (cache : Cache)
    (hs : isBlankSmiles smiles = false) :
    submitTask (.ok ⟨403, body, hdr⟩)
      = .error (.quotaExceeded "Daily quota exceeded for Protox API")
  ∧ (∀ b2 h2, ∃ m, submitTask (.ok ⟨429, b2, h2⟩) = .error (.rateLimited m))
  ∧ (∀ m m', SubmitErr.quotaExceeded m ≠ SubmitErr.rateLimited m')
  ∧ submitPrediction smiles "toxicity" (.ok ⟨403, body, hdr⟩)
      = (submitValidationErr "Daily quota exceeded", 1)
  ∧ submitValidationErr "Daily quota exceeded"
      ≠ submitValidationErr "Rate limited, please retry later"
  ∧ predictSingle smiles "toxicity" maxPolls (.ok ⟨403, body, hdr⟩) events
        fetchNet cache
      = some (singleErrorRec smiles "toxicity"
          "Daily quota exceeded for Protox API", cache, ⟨1, 0, 0⟩) := by
  have hsub : submitTask (.ok ⟨403, body, hdr⟩)
      = .error (.quotaExceeded "Daily quota exceeded for Protox API") := rfl
  have hv : validate_property "toxicity" = true := by decide
  refine ⟨hsub, ?_, ?_, ?_, ?_, ?_⟩
  · intro b2 h2
    exact ⟨_, rfl⟩
  · intro m m' h
    cases h
  · unfold submitPrediction
    rw [hs, hv]
    simp only [Bool.false_eq_true, if_false, Bool.true_eq_false, hsub]
  · decide
  · unfold predictSingle
    rw [hs, hv]
    simp only [Bool.false_eq_true, if_false, Bool.true_eq_false, hsub]
    rfl

/-- Witness for C7 at a concrete SMILES and 403 response. -/
theorem c7_quota_exceeded_witness :
    submitPrediction "CCO" "toxicity" (.ok ⟨403, "", none⟩)
      = (submitValidationErr "Daily quota exceeded", 1)
  ∧ predictSingle "CCO" "toxicity" none (.ok ⟨403, "", none⟩)
        [.ok ⟨200, "done", none⟩] (.error "x") []
      = some (singleErrorRec "CCO" "toxicity"
          "Daily quota exceeded for Protox API", [], ⟨1, 0, 0⟩) := by
  have h := c7_quota_exceeded "CCO" "" none none [.ok ⟨200, "done", none⟩]
    (.error "x") [] (by decide)
  exact ⟨h.2.2.2.1, h.2.2.2.2.2⟩

/-! ## C5: scalar extraction from a ready task -/

/-- C5: when the first status check reports the task ready (a 200
response with non-empty body, with the result not yet cached), the loop
fetches once and extracts the prediction as the first column's
first-row cell parsed as a floating-point number, producing the success
outcome carrying exactly that value; a document with zero rows or zero
columns produces the empty-results error outcome; any parse failure
produces a parse-error outcome; and in every case the loop returns a
well-formed record whose status is `"success"` or `"error"` — it never
crashes the orchestration. -/
theorem c5_ready_extraction (taskId smiles propertyName : String)
    (cache : Cache) (df : DataFrame) (e : Except String HTTPResponse)
    (rest : List (Except String HTTPResponse)) (r : HTTPResponse)
    (he : retrieveTaskStatus e = .ok r)
    (hr : (r.status_code == 200 && r.text != "") = true)
    (hc : List.lookup taskId cache = none) :
    (∀ c q, df.emptyDf = false → firstCell df = some c → pyFloat c = some q →
      pollForResults taskId smiles propertyName none (.ok df) cache 0 (e :: rest)
        = some (⟨smiles, propertyName, "success", some taskId, some q, none⟩,
            (taskId, df) :: cache, 1, 1))
  ∧ (df.emptyDf = true →
      pollForResults taskId smiles propertyName none (.ok df) cache 0 (e :: rest)
        = some (⟨smiles, propertyName, "error", some taskId, none,
            some "Empty results from Protox"⟩, (taskId, df) :: cache, 1, 1))
  ∧ (∀ msg, df.emptyDf = false → extractPrediction df = .error msg →
      pollForResults taskId smiles propertyName none (.ok df) cache 0 (e :: rest)
        = some (⟨smiles, propertyName, "error", some taskId, none,
            some ("Failed to parse results: " ++ msg)⟩, (taskId, df) :: cache, 1, 1))
  ∧ (∀ res c' sc fc,
      pollForResults taskId smiles propertyName none (.ok df) cache 0 (e :: rest)
        = some (res, c', sc, fc) →
      res.status = "success" ∨ res.status = "error") := by
  have hfetch : getResults cache taskId (.ok df) = (.ok df, (taskId, df) :: cache, 1) := by
    unfold getResults
    rw [hc]
  have hloop : pollForResults taskId smiles propertyName none (.ok df) cache 0
      (e :: rest)
      = (match readyBranch taskId smiles propertyName (.ok df) cache with
        | (res, cache', fc) => some (res, cache', 1, fc)) := by
    simp only [pollForResults, pollBudget, he, hr, if_true]
  have hcols : df.emptyDf = false → 0 < df.columns.length := by
    intro hemp
    unfold DataFrame.emptyDf at hemp
    rw [Bool.or_eq_false_iff] at hemp
    cases hcl : df.columns with
    | nil =>
      rw [hcl] at hemp
      simp at hemp
    | cons a l => simp
  refine ⟨?_, ?_, ?_, ?_⟩
  · intro c q hemp hfc hpf
    have hext : extractPrediction df = .ok q := by
      unfold extractPrediction
      rw [hfc]
      simp only [hpf]
    have hcond : df.emptyDf = false ∧ 0 < df.columns.length := ⟨hemp, hcols hemp⟩
    have hready : readyBranch taskId smiles propertyName (.ok df) cache
        = (⟨smiles, propertyName, "success", some taskId, some q, none⟩,
            (taskId, df) :: cache, 1) := by
      unfold readyBranch
      rw [hfetch]
      simp only [if_pos hcond, hext]
    rw [hloop, hready]
  · intro hemp
    have hncond : ¬(df.emptyDf = false ∧ 0 < df.columns.length) := by
      rw [hemp]
      simp
    have hready : readyBranch taskId smiles propertyName (.ok df) cache
        = (⟨smiles, propertyName, "error", some taskId, none,
            some "Empty results from Protox"⟩, (taskId, df) :: cache, 1) := by
      unfold readyBranch
      rw [hfetch]
      simp only [if_neg hncond]
    rw [hloop, hready]
  · intro msg hemp hext
    have hcond : df.emptyDf = false ∧ 0 < df.columns.length := ⟨hemp, hcols hemp⟩
    have hready : readyBranch taskId smiles propertyName (.ok df) cache
        = (⟨smiles, propertyName, "error", some taskId, none,
            some ("Failed to parse results: " ++ msg)⟩, (taskId, df) :: cache, 1) := by
      unfold readyBranch
      rw [hfetch]
      simp only [if_pos hcond, hext]
    rw [hloop, hready]
  · intro res c' sc fc hres
    rw [hloop] at hres
    unfold readyBranch at hres
    rw [hfetch] at hres
    by_cases hcond : df.emptyDf = false ∧ 0 < df.columns.length
    · cases hext : extractPrediction df with
      | ok q =>
        simp only [hext, if_pos hcond, Option.some.injEq, Prod.mk.injEq] at hres
        obtain ⟨h1, -⟩ := hres
        subst h1
        left
        rfl
      | error msg =>
        simp only [hext, if_pos hcond, Option.some.injEq, Prod.mk.injEq] at hres
        obtain ⟨h1, -⟩ := hres
        subst h1
        right
        rfl
    · simp only [if_neg hcond, Option.some.injEq, Prod.mk.injEq] at hres
      obtain ⟨h1, -⟩ := hres
      subst h1
      right
      rfl

/-- Witness for C5: the backend reports ready and the result document
has one column and one row holding `0.73`; the outcome is success with
prediction 73/10^2. -/
theorem c5_ready_extraction_witness :
    pollForResults "t42" "CCO" "toxicity" none
        (.ok ⟨["toxicity_score"], [["0.73"]]⟩) [] 0 [.ok ⟨200, "done", none⟩]
      = some (⟨"CCO", "toxicity", "success", some "t42", some ⟨73, 2⟩, none⟩,
          [("t42", ⟨["toxicity_score"], [["0.73"]]⟩)], 1, 1)
  ∧ pollForResults "t43" "CCO" "toxicity" none
        (.ok ⟨[], []⟩) [] 0 [.ok ⟨200, "done", none⟩]
      = some (⟨"CCO", "toxicity", "error", some "t43", none,
          some "Empty results from Protox"⟩, [("t43", ⟨[], []⟩)], 1, 1) := by
  constructor
  · exact (c5_ready_extraction "t42" "CCO" "toxicity" []
      ⟨["toxicity_score"], [["0.73"]]⟩ (.ok ⟨200, "done", none⟩) []
      ⟨200, "done", none⟩ (by decide) (by decide) (by decide)).1
      "0.73" ⟨73, 2⟩ (by decide) (by decide) (by decide)
  · exact (c5_ready_extraction "t43" "CCO" "toxicity" []
      ⟨[], []⟩ (.ok ⟨200, "done", none⟩) []
      ⟨200, "done", none⟩ (by decide) (by decide) (by decide)).2.1 (by decide)

/-! ## C6: batch skips blanks and preserves input order -/

/-- Every terminal record the ready branch produces carries the SMILES
and property it was invoked with. -/
lemma readyBranch_fields (taskId smiles propertyName : String)
    (fetchNet : Except String DataFrame) (cache : Cache) :
    (readyBranch taskId smiles propertyName fetchNet cache).1.smiles = smiles
  ∧ (readyBranch taskId smiles propertyName fetchNet cache).1.property
      = propertyName := by
  unfold readyBranch
  rcases h0 : getResults cache taskId fetchNet with ⟨res, cache', fc⟩
  cases res with
  | error e => exact ⟨rfl, rfl⟩
  | ok df =>
    by_cases hcond : df.emptyDf = false ∧ 0 < df.columns.length
    · simp only [if_pos hcond]
      cases extractPrediction df with
      | ok q => exact ⟨rfl, rfl⟩
      | error msg => exact ⟨rfl, rfl⟩
    · simp only [if_neg hcond]
      constructor <;> trivial

/-- Every terminal record the poll loop produces carries the SMILES and
property it was invoked with. -/
lemma pollForResults_fields (taskId smiles propertyName : String)
    (maxPolls : Option Nat) (fetchNet : Except String DataFrame)
    (cache : Cache) :
    ∀ (events : List (Except String HTTPResponse)) (pollCount : Nat)
      (res : PredResult) (c' : Cache) (sc fc : Nat),
    pollForResults taskId smiles propertyName maxPolls fetchNet cache
      pollCount events = some (res, c', sc, fc) →
    res.smiles = smiles ∧ res.property = propertyName := by
  intro events
  induction events with
  | nil =>
    intro pollCount res c' sc fc h
    simp only [pollForResults] at h
    cases hpb : pollBudget maxPolls pollCount with
    | some m =>
      rw [hpb] at h
      simp only [Option.some.injEq, Prod.mk.injEq] at h
      obtain ⟨h1, -⟩ := h
      subst h1
      exact ⟨rfl, rfl⟩
    | none =>
      rw [hpb] at h
      simp at h
  | cons e rest ih =>
    intro pollCount res c' sc fc h
    simp only [pollForResults] at h
    cases hpb : pollBudget maxPolls pollCount with
    | some m =>
      rw [hpb] at h
      simp only [Option.some.injEq, Prod.mk.injEq] at h
      obtain ⟨h1, -⟩ := h
      subst h1
      exact ⟨rfl, rfl⟩
    | none =>
      rw [hpb] at h
      cases hrs : retrieveTaskStatus e with
      | error msg =>
        rw [hrs] at h
        simp only [Option.some.injEq, Prod.mk.injEq] at h
        obtain ⟨h1, -⟩ := h
        subst h1
        exact ⟨rfl, rfl⟩
      | ok r =>
        rw [hrs] at h
        simp only [] at h
        by_cases hready : (r.status_code == 200 && r.text != "") = true
        · rw [if_pos hready] at h
          simp only [Option.some.injEq, Prod.mk.injEq] at h
          obtain ⟨h1, -⟩ := h
          rw [← h1]
          exact readyBranch_fields taskId smiles propertyName fetchNet cache
        · rw [if_neg hready] at h
          cases hrec : pollForResults taskId smiles propertyName maxPolls
              fetchNet cache (pollCount + 1) rest with
          | none =>
            rw [hrec] at h
            simp at h
          | some v =>
            rcases v with ⟨res1, c1, sc1, fc1⟩
            rw [hrec] at h
            simp only [Option.some.injEq, Prod.mk.injEq] at h
            obtain ⟨h1, -⟩ := h
            subst h1
            exact ih (pollCount + 1) res1 c1 sc1 fc1 hrec

/-- When every enqueue round trip in the environment succeeds, the
submission phase maps exactly the non-blank identifiers, in input
order, to tasks — one enqueue call per non-blank identifier. -/
lemma submitPhase_all_ok :
    ∀ (xs : List String) (subs : List (Except String HTTPResponse))
      (tasks : List (String × String))
      (rem : List (Except String HTTPResponse)) (n : Nat),
    (∀ net ∈ subs, ∃ t, submitTask net = .ok t) →
    submitPhase subs xs = some (tasks, rem, n) →
    tasks.map Prod.snd = xs.filter (fun s => !isBlankSmiles s)
  ∧ n = (xs.filter (fun s => !isBlankSmiles s)).length := by
  intro xs
  induction xs with
  | nil =>
    intro subs tasks rem n _ h
    simp only [submitPhase, Option.some.injEq, Prod.mk.injEq] at h
    obtain ⟨h1, -, h3⟩ := h
    subst h1
    subst h3
    simp
  | cons s rest ih =>
    intro subs tasks rem n hok h
    by_cases hb : isBlankSmiles s = true
    · simp only [submitPhase, hb, if_true] at h
      have := ih subs tasks rem n hok h
      simpa [hb] using this
    · rw [Bool.not_eq_true] at hb
      simp only [submitPhase, hb, Bool.false_eq_true, if_false] at h
      cases subs with
      | nil => simp at h
      | cons net nets =>
        simp only [] at h
        obtain ⟨t, ht⟩ := hok net (List.mem_cons_self net nets)
        cases hsp : submitPhase nets rest with
        | none =>
          rw [hsp] at h
          simp at h
        | some v =>
          rcases v with ⟨tasks', rem', n'⟩
          rw [hsp] at h
          simp only [] at h
          rw [ht] at h
          simp only [Option.some.injEq, Prod.mk.injEq] at h
          obtain ⟨h1, -, h3⟩ := h
          subst h1
          subst h3
          have hrest := ih nets tasks' rem' n'
            (fun x hx => hok x (List.mem_cons_of_mem net hx)) hsp
          simp only [List.map_cons, List.filter_cons, hb, Bool.not_false,
            if_true, List.length_cons]
          exact ⟨by rw [hrest.1], by rw [hrest.2]⟩

/-- The polling phase produces one record per task, in order, each
carrying its task's SMILES. -/
lemma pollPhase_smiles (propertyName : String) (maxPolls : Option Nat) :
    ∀ (tasks : List (String × String)) (cache : Cache)
      (envs : List (List (Except String HTTPResponse) × Except String DataFrame))
      (results : List PredResult) (cache' : Cache) (sc fc : Nat),
    pollPhase propertyName maxPolls cache envs tasks
      = some (results, cache', sc, fc) →
    results.map PredResult.smiles = tasks.map Prod.snd := by
  intro tasks
  induction tasks with
  | nil =>
    intro cache envs results cache' sc fc h
    simp only [pollPhase, Option.some.injEq, Prod.mk.injEq] at h
    obtain ⟨h1, -⟩ := h
    subst h1
    simp
  | cons ts rest ih =>
    rcases ts with ⟨taskId, s⟩
    intro cache envs results cache' sc fc h
    cases envs with
    | nil => simp [pollPhase] at h
    | cons env envs' =>
      rcases env with ⟨events, fetchNet⟩
      simp only [pollPhase] at h
      cases hpoll : pollForResults taskId s propertyName maxPolls fetchNet
          cache 0 events with
      | none =>
        rw [hpoll] at h
        simp at h
      | some v =>
        rcases v with ⟨res0, cache0, sc0, fc0⟩
        rw [hpoll] at h
        simp only [] at h
        cases hrest : pollPhase propertyName maxPolls cache0 envs' rest with
        | none =>
          rw [hrest] at h
          simp at h
        | some w =>
          rcases w with ⟨results1, cache1, sc1, fc1⟩
          rw [hrest] at h
          simp only [Option.some.injEq, Prod.mk.injEq] at h
          obtain ⟨h1, -⟩ := h
          subst h1
          have hs0 := (pollForResults_fields taskId s propertyName maxPolls
            fetchNet cache events 0 res0 cache0 sc0 fc0 hpoll).1
          simp only [List.map_cons, hs0]
          rw [ih cache0 envs' results1 cache1 sc1 fc1 hrest]

/-- C6: when every enqueue succeeds, `predict_batch` produces exactly
one outcome per non-blank identifier, in input order — blank or
whitespace-only identifiers are silently skipped and produce no outcome
record and no enqueue call (the enqueue count equals the number of
non-blank identifiers). -/
theorem c6_batch_order (propertyName : String) (maxPolls : Option Nat)
    (subs : List (Except String HTTPResponse))
    (envs : List (List (Except String HTTPResponse) × Except String DataFrame))
    (cache : Cache) (xs : List String) (results : List PredResult)
    (cache' : Cache) (counts : NetCounts)
    (hok : ∀ net ∈ subs, ∃ t, submitTask net = .ok t)
    (h : predictBatch propertyName maxPolls subs envs cache xs
      = some (results, cache', counts)) :
    results.map PredResult.smiles = xs.filter (fun s => !isBlankSmiles s)
  ∧ counts.submit = (xs.filter (fun s => !isBlankSmiles s)).length := by
  unfold predictBatch at h
  cases hsp : submitPhase subs xs with
  | none =>
    rw [hsp] at h
    simp at h
  | some v =>
    rcases v with ⟨tasks, rem, n⟩
    rw [hsp] at h
    simp only [] at h
    cases hpp : pollPhase propertyName maxPolls cache envs tasks with
    | none =>
      rw [hpp] at h
      simp at h
    | some w =>
      rcases w with ⟨results1, cache1, sc1, fc1⟩
      rw [hpp] at h
      simp only [Option.some.injEq, Prod.mk.injEq] at h
      obtain ⟨h1, -, h3⟩ := h
      subst h1
      subst h3
      have hsub := submitPhase_all_ok xs subs tasks rem n hok hsp
      constructor
      · rw [pollPhase_smiles propertyName maxPolls tasks cache envs results1
          cache1 sc1 fc1 hpp]
        exact hsub.1
      · exact hsub.2

/-- Witness for C6: on `["CCO", "   ", "CCN"]` with the middle entry
blank, the batch produces exactly two outcomes, for `"CCO"` then
`"CCN"`, and issues exactly two enqueue calls. -/
theorem c6_batch_order_witness :
    ∃ results cache' counts,
      predictBatch "toxicity" (some 0)
          [.ok ⟨200, "t1", none⟩, .ok ⟨200, "t2", none⟩]
          [([], .error "x"), ([], .error "x")] [] ["CCO", "   ", "CCN"]
        = some (results, cache', counts)
      ∧ results.map PredResult.smiles = ["CCO", "CCN"]
      ∧ counts.submit = 2 := by
  have h : predictBatch "toxicity" (some 0)
      [.ok ⟨200, "t1", none⟩, .ok ⟨200, "t2", none⟩]
      [([], .error "x"), ([], .error "x")] [] ["CCO", "   ", "CCN"]
      = some ([timeoutRec "CCO" "toxicity" 0, timeoutRec "CCN" "toxicity" 0],
          [], ⟨2, 0, 0⟩) := by decide
  have hok : ∀ net ∈ [Except.ok (HTTPResponse.mk 200 "t1" none),
      Except.ok (HTTPResponse.mk 200 "t2" none)],
      ∃ t, submitTask net = Except.ok t := by
    intro net hnet
    rcases List.mem_cons.mp hnet with h1 | h1
    · subst h1
      exact ⟨"t1", by decide⟩
    · rcases List.mem_cons.mp h1 with h2 | h2
      · subst h2
        exact ⟨"t2", by decide⟩
      · simp at h2
  have hmain := c6_batch_order "toxicity" (some 0)
    [.ok ⟨200, "t1", none⟩, .ok ⟨200, "t2", none⟩]
    [([], .error "x"), ([], .error "x")] [] ["CCO", "   ", "CCN"]
    [timeoutRec "CCO" "toxicity" 0, timeoutRec "CCN" "toxicity" 0]
    [] ⟨2, 0, 0⟩ hok h
  refine ⟨_, _, _, h, ?_, hmain.2⟩
  exact hmain.1.trans (by decide)

/-! ## C2: validation before network activity -/

/-- C2 counterexample: the claim says all three public operations
validate the category before any network activity, but
`ProtoxHandler.predict_batch` performs no category validation at all:
invoked directly with the unsupported category `"solubility"` and one
non-blank identifier, it issues one enqueue network call instead of
returning a validation error. -/
theorem c2_counterexample :
    validate_property "solubility" = false
  ∧ predictBatch "solubility" (some 0) [.ok ⟨200, "t1", none⟩]
        [([], .error "boom")] [] ["CCO"]
      = some ([timeoutRec "CCO" "solubility" 0], [], ⟨1, 0, 0⟩) := by
  decide

/-- C2 amended: `submit_prediction` and `predict_single` reject a blank
identifier and an unsupported category before any network activity
(zero network calls, cache untouched); `predict_batch` skips blank
identifiers without network activity for them (a batch of only blanks
issues no call at all) but performs no category validation itself —
for the batch operation an unsupported category is rejected with a 400
validation error by the HTTP route, before the orchestrator runs and
with no network call. -/
theorem c2_validation_before_network :
    (∀ smiles propertyName (net : Except String HTTPResponse),
      isBlankSmiles smiles = true →
      submitPrediction smiles propertyName net
        = (submitValidationErr "SMILES string cannot be empty", 0))
  ∧ (∀ smiles propertyName (net : Except String HTTPResponse),
      isBlankSmiles smiles = false → validate_property propertyName = false →
      submitPrediction smiles propertyName net
        = (submitValidationErr
            ("Property '" ++ propertyName ++ "' not supported"), 0))
  ∧ (∀ smiles propertyName maxPolls submitNet events fetchNet (cache : Cache),
      isBlankSmiles smiles = true →
      predictSingle smiles propertyName maxPolls submitNet events fetchNet cache
        = some (singleErrorRec smiles propertyName
            "SMILES string cannot be empty", cache, ⟨0, 0, 0⟩))
  ∧ (∀ smiles propertyName maxPolls submitNet events fetchNet (cache : Cache),
      isBlankSmiles smiles = false → validate_property propertyName = false →
      predictSingle smiles propertyName maxPolls submitNet events fetchNet cache
        = some (singleErrorRec smiles propertyName
            ("Property '" ++ propertyName ++ "' not supported"), cache, ⟨0, 0, 0⟩))
  ∧ (∀ propertyName maxPolls subs envs (cache : Cache) (xs : List String),
      (∀ s ∈ xs, isBlankSmiles s = true) →
      predictBatch propertyName maxPolls subs envs cache xs
        = some ([], cache, ⟨0, 0, 0⟩))
  ∧ (∀ (xs : List String) propertyName maxPolls subs envs (cache : Cache),
      validate_property propertyName = false → xs ≠ [] → xs.length ≤ 1000 →
      predictBatchEndpoint xs propertyName maxPolls subs envs cache
        = some (.error (400, propertyNotSupportedDetail propertyName),
            cache, ⟨0, 0, 0⟩)) := by
  have hblanks : ∀ (subs : List (Except String HTTPResponse)) (xs : List String),
      (∀ s ∈ xs, isBlankSmiles s = true) →
      submitPhase subs xs = some ([], subs, 0) := by
    intro subs xs
    induction xs with
    | nil =>
      intro _
      rfl
    | cons s rest ih =>
      intro hall
      have hb := hall s (List.mem_cons_self s rest)
      simp only [submitPhase, hb, if_true]
      exact ih (fun x hx => hall x (List.mem_cons_of_mem s hx))
  refine ⟨?_, ?_, ?_, ?_, ?_, ?_⟩
  · intro smiles propertyName net hb
    unfold submitPrediction
    rw [hb]
    rfl
  · intro smiles propertyName net hb hv
    unfold submitPrediction
    rw [hb, hv]
    rfl
  · intro smiles propertyName maxPolls submitNet events fetchNet cache hb
    unfold predictSingle
    rw [hb]
    rfl
  · intro smiles propertyName maxPolls submitNet events fetchNet cache hb hv
    unfold predictSingle
    rw [hb, hv]
    rfl
  · intro propertyName maxPolls subs envs cache xs hall
    unfold predictBatch
    rw [hblanks subs xs hall]
    simp only [pollPhase]
  · intro xs propertyName maxPolls subs envs cache hv hne hlen
    have hemp : xs.isEmpty = false := by
      cases xs with
      | nil => exact absurd rfl hne
      | cons a l => rfl
    have hlen' : ¬1000 < xs.length := by omega
    unfold predictBatchEndpoint
    rw [hemp, hv]
    simp [hlen']

/-- Witness for C2 at concrete inputs: a blank identifier and the
unsupported category `"solubility"` are rejected by each validating
operation with zero network calls, an all-blank batch issues no call,
and the batch route rejects `"solubility"` before orchestration. -/
theorem c2_validation_before_network_witness :
    submitPrediction "   " "toxicity" (.error "net down")
      = (submitValidationErr "SMILES string cannot be empty", 0)
  ∧ submitPrediction "CCO" "solubility" (.error "net down")
      = (submitValidationErr "Property 'solubility' not supported", 0)
  ∧ predictSingle "CCO" "solubility" none (.error "net down") [] (.error "x") []
      = some (singleErrorRec "CCO" "solubility"
          "Property 'solubility' not supported", [], ⟨0, 0, 0⟩)
  ∧ predictBatch "toxicity" none [] [] [] ["", "   "]
      = some ([], [], ⟨0, 0, 0⟩)
  ∧ predictBatchEndpoint ["CCO"] "solubility" none [] [] []
      = some (.error (400, propertyNotSupportedDetail "solubility"),
          [], ⟨0, 0, 0⟩) := by
  refine ⟨?_, ?_, ?_, ?_, ?_⟩
  · exact c2_validation_before_network.1 "   " "toxicity" (.error "net down")
      (by decide)
  · exact c2_validation_before_network.2.1 "CCO" "solubility" (.error "net down")
      (by decide) (by decide)
  · exact c2_validation_before_network.2.2.2.1 "CCO" "solubility" none
      (.error "net down") [] (.error "x") [] (by decide) (by decide)
  · exact c2_validation_before_network.2.2.2.2.1 "toxicity" none [] [] []
      ["", "   "] (by decide)
  · exact c2_validation_before_network.2.2.2.2.2 ["CCO"] "solubility" none [] []
      [] (by decide) (by decide) (by decide)

end Protox
